import Mathlib

/-!
Verification of the update-dashboard container update engine and its
operator-facing frontend.

The repository ships the React frontend (embedded below from
`src/frontend/src/...` and the unnamed component files); the backend
orchestration engine described by the specification (RemoteConnector,
DigestResolver, ConfigSnapshot, UpdateOrchestrator, FleetCoordinator)
is not part of the shipped sources, so those components are modelled
here directly from the specification's §3–§4.5 and settled against that
model.
-/

namespace UpdateDashboard

/-! ## Data model (spec §3) -/

/-- An exposed/published port: host:container:protocol triple.
Modelled from the spec: ConfigSnapshot field "exposed/published ports
(host:container:protocol triples)"; the source backend is absent. -/
structure PortMapping where
  hostPort : Option Nat
  containerPort : Nat
  protocol : String
deriving DecidableEq, Repr

/-- A mounted volume (source, destination, mode).
Modelled from the spec: ConfigSnapshot field "mounted volumes". -/
structure VolumeMount where
  source : String
  destination : String
  mode : String
deriving DecidableEq, Repr

/-- An attached network with any static IP and aliases.
Modelled from the spec: ConfigSnapshot field "attached networks (with any
static IP/alias)". -/
structure NetworkAttachment where
  network : String
  staticIp : Option String
  aliases : List String
deriving DecidableEq, Repr

/-- Resource limits carried by a snapshot.
Modelled from the spec: ConfigSnapshot field "resource limits". -/
structure ResourceLimits where
  memoryBytes : Option Nat
  nanoCpus : Option Nat
deriving DecidableEq, Repr

/-- Modelled from the spec: "ConfigSnapshot — an immutable, fully
serializable record of a container's desired state at the moment an update
begins: image reference, command/entrypoint overrides, exposed/published
ports, mounted volumes, environment variables, attached networks, labels,
restart policy, resource limits." The backend source is absent from the
repository. -/
structure ConfigSnapshot where
  image : String
  entrypoint : Option (List String)
  command : Option (List String)
  ports : List PortMapping
  volumes : List VolumeMount
  environment : List (String × String)
  networks : List NetworkAttachment
  labels : List (String × String)
  restartPolicy : String
  resources : ResourceLimits
deriving DecidableEq, Repr

/-- A container as known to a remote daemon: its name, the digest of the
image it actually runs, its declared configuration and whether it is
running. Modelled from the spec (§3 ContainerRef / §4.2 "the digest
currently associated with the running container"). -/
structure Container where
  name : String
  imageDigest : String
  config : ConfigSnapshot
  running : Bool
deriving DecidableEq, Repr

/-- The observable state of one remote daemon plus the registry view:
the containers it hosts and, per image reference, the digest the registry
would serve (absent when the registry cannot be queried).
Modelled from the spec: the remote daemon reached through a
RemoteConnector, and the registry consulted by DigestResolver. -/
structure World where
  containers : List Container
  registry : List (String × String)
deriving DecidableEq, Repr

def lookupAssoc (l : List (String × String)) (k : String) : Option String :=
  match l with
  | [] => none
  | (k1, v) :: rest => if k1 = k then some v else lookupAssoc rest k

def lookupContainer (w : World) (n : String) : Option Container :=
  w.containers.find? (fun c => c.name = n)

/-! ## DigestResolver (spec §4.2) -/

/-- Result of one digest resolution. Modelled from the spec:
"Resolve(imageRef, connection) → \x7blocalDigest, remoteDigest,
updateAvailable : bool\x7d"; `warning` is the soft
DigestUnresolvableWarning of §7. -/
structure DigestResolution where
  localDigest : Option String
  remoteDigest : Option String
  updateAvailable : Bool
  warning : Bool
deriving DecidableEq, Repr

/-- Modelled from the spec: "`updateAvailable` is true iff the two digests
are resolvable and differ; if the remote digest cannot be determined ...
the result is `updateAvailable = false` with a soft warning, never an
error that aborts the whole scan." The backend DigestResolver source is
absent from the repository. -/
def resolveDigest (localD remoteD : Option String) : DigestResolution :=
  match localD, remoteD with
  | some l, some r =>
      { localDigest := some l, remoteDigest := some r
        updateAvailable := decide (l ≠ r), warning := false }
  | localD, remoteD =>
      { localDigest := localD, remoteDigest := remoteD
        updateAvailable := false, warning := remoteD.isNone }

/-- One fleet scan: resolve every container's digests against the
registry. Modelled from the spec: "one container's unresolvable digest
must not block reporting on the rest of the fleet" — the scan is a total
map, producing a result per container. -/
def scanFleet (w : World) : List (String × DigestResolution) :=
  w.containers.map (fun c =>
    (c.name, resolveDigest (some c.imageDigest) (lookupAssoc w.registry c.config.image)))

/-! ## ConfigSnapshot capture/replay (spec §4.3) -/

/-- Modelled from the spec: "Capture(connection, containerRef) →
ConfigSnapshot reading the live container's inspected state into the
immutable record of §3." -/
def capture (c : Container) : ConfigSnapshot := c.config

/-- Modelled from the spec: "Replay(connection, snapshot, newImageRef) →
newContainerRef creates a new container using the snapshot's
configuration but the new image reference, without starting it." The new
container is created under the given name with the given image digest. -/
def replay (snap : ConfigSnapshot) (n : String) (newImageRef newDigest : String) :
    Container :=
  { name := n, imageDigest := newDigest
    config := { snap with image := newImageRef }, running := false }

/-! ## UpdateOrchestrator (spec §4.4, §7) -/

/-- Fault injection for the fallible steps of one orchestration run.
Modelled from the spec: each step of the state machine may fail
(SnapshotCaptureError, PullError, RecreateError, VerifyTimeoutError,
RollbackError); a `true` flag means the corresponding daemon/registry
operation fails when the run reaches it. -/
structure Faults where
  snapshotFails : Bool
  pullFails : Bool
  recreateFails : Bool
  startFails : Bool
  verifyFails : Bool
  rollbackFails : Bool
deriving DecidableEq, Repr

/-- Modelled from the spec: UpdateResult status
`updated | up_to_date | failed_rolled_back | failed_unrecoverable`. -/
inductive UpdateStatus where
  | updated
  | up_to_date
  | failed_rolled_back
  | failed_unrecoverable
deriving DecidableEq, Repr

/-- Modelled from the spec: the §7 error taxonomy. -/
inductive ErrorClass where
  | connectionError
  | digestUnresolvableWarning
  | snapshotCaptureError
  | pullError
  | recreateError
  | verifyTimeoutError
  | rollbackError
deriving DecidableEq, Repr

/-- Modelled from the spec: "UpdateResult — outcome of one orchestration
run: status, ordered log of operation steps taken (for audit/display),
and, on failure, the error classification"; the RollbackError case "must
include the full pre-update ConfigSnapshot in the result". -/
structure UpdateResult where
  status : UpdateStatus
  logs : List String
  errorClass : Option ErrorClass
  snapshot : Option ConfigSnapshot
deriving DecidableEq, Repr

def stopContainerW (w : World) (n : String) : World :=
  { w with containers :=
      w.containers.map (fun c => if c.name = n then { c with running := false } else c) }

def removeContainerW (w : World) (n : String) : World :=
  { w with containers := w.containers.filter (fun c => ¬ (c.name = n)) }

def addContainerW (w : World) (c : Container) : World :=
  { w with containers := w.containers ++ [c] }

def startContainerW (w : World) (n : String) : World :=
  { w with containers :=
      w.containers.map (fun c => if c.name = n then { c with running := true } else c) }

/-- Restoration of the original container from the original snapshot:
remove any half-created replacement, re-create the original container
(original snapshot, original image digest) and start it.
Modelled from the spec: "`RollingBack`: best-effort restoration using the
original ConfigSnapshot." -/
def rollbackW (w : World) (n : String) (origDigest : String) (snap : ConfigSnapshot) :
    World :=
  startContainerW (addContainerW (removeContainerW w n) (replay snap n snap.image origDigest)) n

def checkingLog : String := "[Checking] comparing local and remote digests"
def digestWarnLog : String := "WARNING: remote digest could not be determined"
def upToDateLog : String := "Container is up to date"
def snapshotLog : String := "[Snapshotting] capturing container configuration"
def pullLog : String := "[Pulling] ensuring new image is present locally"
def stoppingLog : String := "[Stopping] stopping original container"
def removingLog : String := "[Removing] removing original container"
def recreatingLog : String := "[Recreating] creating replacement container"
def startingLog : String := "[Starting] starting replacement container"
def verifyingLog : String := "[Verifying] liveness check on replacement"
def rollingBackLog : String := "[RollingBack] restoring original container"
def rolledBackLog : String := "[RolledBack] original container restored"
def committedLog : String := "[Committed] update successful"

/-- A log line recording a stop, remove, create or start operation on the
container. -/
def isDestructiveLog (s : String) : Bool :=
  s = stoppingLog ∨ s = removingLog ∨ s = recreatingLog ∨ s = startingLog

/-- Shared terminal handling for every failure past the destructive
boundary. Modelled from the spec: failures from `Stopping` onward enter
`RollingBack`; a successful rollback terminates in `RolledBack`
(`failed_rolled_back`), a failed rollback in `RollbackFailed`
(`failed_unrecoverable`, carrying the pre-update snapshot). -/
def rollbackFrom (w : World) (f : Faults) (n : String) (origDigest : String)
    (snap : ConfigSnapshot) (logs : List String) (cls : ErrorClass) :
    World × UpdateResult :=
  if f.rollbackFails then
    (w, { status := .failed_unrecoverable
          logs := logs ++ [rollingBackLog, "ERROR: rollback failed"]
          errorClass := some .rollbackError, snapshot := some snap })
  else
    (rollbackW w n origDigest snap,
     { status := .failed_rolled_back
       logs := logs ++ [rollingBackLog, rolledBackLog]
       errorClass := some cls, snapshot := some snap })

/-- One orchestration run. Modelled from the spec (§4.4): Checking →
Snapshotting → Pulling → Stopping → Removing → Recreating → Starting →
Verifying → Committed, with the short-circuit `up_to_date` path, the
pre-destructive aborts reported `failed_unrecoverable`, and the rollback
path for every failure from the destructive boundary onward. Returns
`none` when no container of the given name exists on the host. -/
def updateContainer (w : World) (f : Faults) (n : String) (force : Bool) :
    Option (World × UpdateResult) :=
  match lookupContainer w n with
  | none => none
  | some c =>
    let res := resolveDigest (some c.imageDigest) (lookupAssoc w.registry c.config.image)
    if res.updateAvailable || (force && res.warning) then
      let newDigest := res.remoteDigest.getD c.imageDigest
      if f.snapshotFails then
        some (w, { status := .failed_unrecoverable
                   logs := [checkingLog, snapshotLog, "ERROR: snapshot capture failed"]
                   errorClass := some .snapshotCaptureError, snapshot := none })
      else
        let snap := capture c
        if f.pullFails then
          some (w, { status := .failed_unrecoverable
                     logs := [checkingLog, snapshotLog, pullLog, "ERROR: image pull failed"]
                     errorClass := some .pullError, snapshot := some snap })
        else
          let w2 := removeContainerW (stopContainerW w n) n
          if f.recreateFails then
            some (rollbackFrom w2 f n c.imageDigest snap
              [checkingLog, snapshotLog, pullLog, stoppingLog, removingLog,
               recreatingLog, "ERROR: recreate failed"] .recreateError)
          else
            let w3 := addContainerW w2 (replay snap n c.config.image newDigest)
            if f.startFails then
              some (rollbackFrom w3 f n c.imageDigest snap
                [checkingLog, snapshotLog, pullLog, stoppingLog, removingLog,
                 recreatingLog, startingLog, "ERROR: start failed"] .verifyTimeoutError)
            else
              let w4 := startContainerW w3 n
              if f.verifyFails then
                some (rollbackFrom w4 f n c.imageDigest snap
                  [checkingLog, snapshotLog, pullLog, stoppingLog, removingLog,
                   recreatingLog, startingLog, verifyingLog,
                   "ERROR: verification timed out"] .verifyTimeoutError)
              else
                some (w4, { status := .updated
                            logs := [checkingLog, snapshotLog, pullLog, stoppingLog,
                                     removingLog, recreatingLog, startingLog,
                                     verifyingLog, committedLog]
                            errorClass := none, snapshot := some snap })
    else
      some (w, { status := .up_to_date
                 logs := [checkingLog] ++
                   (if res.warning then [digestWarnLog] else []) ++ [upToDateLog]
                 errorClass := if res.warning then some .digestUnresolvableWarning else none
                 snapshot := none })

/-! ## FleetCoordinator (spec §4.5) -/

/-- One fan-out target: an independent (host, container) pair, carried
with the daemon state and fault script of its own host.
Modelled from the spec: "Fans out independent UpdateOrchestrator runs
...; the FleetCoordinator opens one connection per concurrent task". -/
structure Target where
  world : World
  faults : Faults
  name : String
  force : Bool
deriving Repr

/-- Modelled from the spec: "UpdateMany(targets) → map of per-target
UpdateResult", one independent orchestrator run per target. -/
def updateMany (ts : List Target) : List (Option (World × UpdateResult)) :=
  ts.map (fun t => updateContainer t.world t.faults t.name t.force)

def isFailureR (r : UpdateResult) : Bool :=
  match r.status with
  | UpdateStatus.failed_rolled_back => true
  | UpdateStatus.failed_unrecoverable => true
  | _ => false

def isSuccessR (r : UpdateResult) : Bool :=
  match r.status with
  | UpdateStatus.updated => true
  | UpdateStatus.up_to_date => true
  | _ => false

/-- A fan-out entry counts as failed when its run ended
`failed_rolled_back` / `failed_unrecoverable`, or when its container
could not even be addressed. -/
def entryFails (o : Option (World × UpdateResult)) : Bool :=
  match o with
  | some p => isFailureR p.2
  | none => true

def entrySucceeds (o : Option (World × UpdateResult)) : Bool :=
  match o with
  | some p => isSuccessR p.2
  | none => false

def countFailures (rs : List (Option (World × UpdateResult))) : Nat :=
  rs.countP entryFails

def countSuccesses (rs : List (Option (World × UpdateResult))) : Nat :=
  rs.countP entrySucceeds

/-! ## Dashboard multi-host fan-out (frontend `fetchAllStats`) -/

/-- What one host's fetch can observe in `fetchAllStats`
(Dashboard.jsx lines 394–458): the status probe reports not connected,
some call in the per-host block throws, or the container list (and
optional system-update count) is obtained. -/
inductive HostFetch where
  | notConnected
  | apiError (msg : String)
  | ok (containers : List Container) (systemUpdates : Option Nat)
deriving Repr

/-- Per-host stats entry as built by `fetchAllStats`. -/
structure HostStats where
  connected : Bool
  totalContainers : Nat
  runningContainers : Nat
  systemUpdates : Nat
deriving DecidableEq, Repr

/-- The per-host body of `fetchAllStats`: a disconnected status probe or
a thrown error records a `connected := false` entry; otherwise the entry
carries the container counts, with a failed system-update fetch
downgraded to zero. -/
def hostStatsOf : HostFetch → HostStats
  | .notConnected =>
      { connected := false, totalContainers := 0, runningContainers := 0, systemUpdates := 0 }
  | .apiError _ =>
      { connected := false, totalContainers := 0, runningContainers := 0, systemUpdates := 0 }
  | .ok cs sys =>
      { connected := true
        totalContainers := cs.length
        runningContainers := (cs.filter (fun c => c.running)).length
        systemUpdates := sys.getD 0 }

/-- `fetchAllStats`: every host gets exactly one entry, computed from its
own fetch outcome alone (the per-host try/catch keeps one host's failure
from touching its siblings). -/
def fetchAllStats (hosts : List (Nat × HostFetch)) : List (Nat × HostStats) :=
  hosts.map (fun h => (h.1, hostStatsOf h.2))

/-! ## Operator-facing log view (frontend `UpdateModal`) -/

/-- Colour class chosen for a log line by `UpdateModal` (result view,
lines 147–163): ERROR lines red, bracketed step lines primary, the rest
neutral. -/
def logLineClass (log : String) : String :=
  if log.startsWith "ERROR" then "text-red-400"
  else if log.startsWith "[" then "text-primary-400"
  else "text-dark-300"

/-- The rendered log rows of `UpdateModal`: one row per entry of
`result.logs`, in order, carrying a colour class and the entry text
itself unmodified. -/
def renderLogs (logs : List String) : List (String × String) :=
  logs.map (fun log => (logLineClass log, log))

/-! ## SOC authentication (frontend `AuthContext`) -/

/-- The effective SOC password: `import.meta.env.VITE_SOC_PASSWORD ||
'admin'` — the JavaScript `||` falls back to "admin" both when the
variable is unset and when it is set to the (falsy) empty string. -/
def socPassword (env : Option String) : String :=
  match env with
  | none => "admin"
  | some s => if s = "" then "admin" else s

/-- The claim's reading of the default, for comparison: "defaults to the
string 'admin' when the variable is unset" — so a set variable is used
as-is, including when it is empty. -/
def claimedSocPassword (env : Option String) : String :=
  env.getD "admin"

/-- The client-side session: the React `isAuthenticated` flag and the
`soc_auth_token` localStorage entry. -/
structure AuthSession where
  isAuthenticated : Bool
  storageToken : Option String
deriving DecidableEq, Repr

/-- `login` from AuthContext.jsx (lines 18–29): compare the password to
the effective SOC password; on success mark the session authenticated
and store the literal token "authenticated", on failure leave the
session unchanged and return false. -/
def login (env : Option String) (password : String) (s : AuthSession) :
    Bool × AuthSession :=
  if password = socPassword env then
    (true, { isAuthenticated := true, storageToken := some "authenticated" })
  else
    (false, s)

/-- Mount effect of `AuthProvider` (lines 10–16): the session is treated
as authenticated exactly when the stored token is the literal string
"authenticated"; no password is consulted. -/
def initialAuth (storageToken : Option String) : Bool :=
  storageToken = some "authenticated"

/-! ## Container deletion (frontend `containersApi.delete` and
`DeleteModal`) -/

/-- Query parameters of one delete request. -/
structure DeleteRequestParams where
  remove_image : Bool
  force : Bool
deriving DecidableEq, Repr

/-- `containersApi.delete(hostId, containerId, removeImage = true,
force = false)` from services/api.js lines 64–67: absent arguments take
the declared defaults. -/
def containersDelete (removeImage force : Option Bool) : DeleteRequestParams :=
  { remove_image := removeImage.getD true, force := force.getD false }

/-- The checkbox state of `DeleteModal`. -/
structure DeleteModalState where
  removeImage : Bool
  force : Bool
deriving DecidableEq, Repr

/-- Initial `DeleteModal` state (lines 4–10): `useState(true)` for
removeImage, `useState(false)` for force. -/
def initDeleteModal : DeleteModalState :=
  { removeImage := true, force := false }

/-- The force checkbox is rendered only under
`container.state === 'running'` (DeleteModal lines 81–99). -/
def deleteModalOffersForce (containerState : String) : Bool :=
  containerState = "running"

/-! ## Host connection form (frontend `HostForm`, System.jsx) -/

/-- An existing host record as handed to the edit form. -/
structure HostRecord where
  name : String
  hostname : String
  connection_type : String
  ssh_port : Nat
  ssh_user : String
  docker_port : Nat
  docker_tls : Bool
deriving DecidableEq, Repr

/-- The `HostForm` state (System.jsx lines 314–325). -/
structure HostFormData where
  name : String
  hostname : String
  connection_type : String
  ssh_port : Nat
  ssh_user : String
  docker_port : Nat
  docker_tls : Bool
deriving DecidableEq, Repr

/-- Initial form state: the `useState` initialiser of `HostForm` —
`connection_type: host?.connection_type || 'ssh'`,
`docker_tls: host?.docker_tls ?? true`, etc. -/
def initHostForm (host : Option HostRecord) : HostFormData :=
  match host with
  | none =>
      { name := "", hostname := "", connection_type := "ssh", ssh_port := 22
        ssh_user := "update-manager", docker_port := 2376, docker_tls := true }
  | some h =>
      { name := h.name, hostname := h.hostname, connection_type := h.connection_type
        ssh_port := h.ssh_port, ssh_user := h.ssh_user, docker_port := h.docker_port
        docker_tls := h.docker_tls }

/-- The form events that touch the connection configuration: the two
radio buttons (values "ssh" and "tcp", System.jsx lines 379–401), the
"Use TLS" checkbox (lines 474–483, `e.target.checked` may be false), and
the docker port field. -/
inductive HostFormEvent where
  | selectSsh
  | selectTcp
  | setUseTls (checked : Bool)
  | setDockerPort (p : Nat)
deriving Repr

def applyHostFormEvent : HostFormEvent → HostFormData → HostFormData
  | .selectSsh, s => { s with connection_type := "ssh" }
  | .selectTcp, s => { s with connection_type := "tcp" }
  | .setUseTls b, s => { s with docker_tls := b }
  | .setDockerPort p, s => { s with docker_port := p }

/-- Form states reachable from an initial state through the form's own
controls. -/
inductive HostFormReachable (init : HostFormData) : HostFormData → Prop where
  | start : HostFormReachable init init
  | step (e : HostFormEvent) (s : HostFormData) :
      HostFormReachable init s → HostFormReachable init (applyHostFormEvent e s)

/-- A concrete form state the operator can produce: pick Docker TCP, then
untick "Use TLS". -/
def tcpWithoutTls : HostFormData :=
  applyHostFormEvent (.setUseTls false)
    (applyHostFormEvent .selectTcp (initHostForm none))

/-! ## Library-style helper lemmas about container lookup -/

theorem find?_filter_ne (l : List Container) (n : String) :
    (l.filter (fun c => ¬ (c.name = n))).find? (fun c => c.name = n) = none := by
  induction l with
  | nil => rfl
  | cons c rest ih =>
    by_cases h : c.name = n <;>
      simp [List.filter_cons, List.find?, h, ih]

theorem find?_append_none (l1 l2 : List Container) (p : Container → Bool)
    (h : l1.find? p = none) : (l1 ++ l2).find? p = l2.find? p := by
  rw [List.find?_eq_none] at h
  induction l1 with
  | nil => simp
  | cons c rest ih =>
    have hc : p c = false := Bool.eq_false_iff.mpr (h c (by simp))
    simp only [List.cons_append, List.find?, hc]
    exact ih (fun x hx => h x (by simp [hx]))

theorem find?_map_name_preserving (l : List Container) (g : Container → Container)
    (n : String) (hg : ∀ c, (g c).name = c.name) :
    (l.map g).find? (fun c => c.name = n) =
      (l.find? (fun c => c.name = n)).map g := by
  induction l with
  | nil => rfl
  | cons c rest ih =>
    by_cases h : c.name = n <;>
      simp [List.find?, hg, h, ih]

theorem lookup_removeW (w : World) (n : String) :
    lookupContainer (removeContainerW w n) n = none :=
  find?_filter_ne w.containers n

theorem lookup_addW_after_remove (w : World) (n : String) (c : Container)
    (hn : c.name = n) :
    lookupContainer (addContainerW (removeContainerW w n) c) n = some c := by
  unfold lookupContainer addContainerW
  rw [find?_append_none _ _ _ (lookup_removeW w n)]
  simp [List.find?, hn]

theorem lookup_startW (w : World) (n : String) :
    lookupContainer (startContainerW w n) n =
      (lookupContainer w n).map
        (fun c => if c.name = n then { c with running := true } else c) := by
  unfold lookupContainer startContainerW
  exact find?_map_name_preserving w.containers _ n
    (fun c => by by_cases h : c.name = n <;> simp [h])

/-- After rollback, the container of the original name is present,
running, with the original image digest and the original snapshot as its
configuration. -/
theorem lookup_rollbackW (w : World) (n : String) (origDigest : String)
    (snap : ConfigSnapshot) :
    lookupContainer (rollbackW w n origDigest snap) n =
      some { name := n, imageDigest := origDigest, config := snap, running := true } := by
  unfold rollbackW
  rw [lookup_startW, lookup_addW_after_remove w n _ rfl]
  simp [replay]

/-- After the commit path's recreate-and-start, the container of the
updated name is present, running, with the new digest and the replayed
configuration. -/
theorem lookup_commitW (w : World) (n : String) (snap : ConfigSnapshot)
    (ref d : String) :
    lookupContainer
      (startContainerW
        (addContainerW (removeContainerW (stopContainerW w n) n) (replay snap n ref d)) n) n =
      some { name := n, imageDigest := d
             config := { snap with image := ref }, running := true } := by
  rw [lookup_startW, lookup_addW_after_remove _ n _ rfl]
  simp [replay]

/-! ## The idempotent no-op path -/

/-- When the container's local digest equals the registry digest, one
orchestration run returns the literal `up_to_date` result and leaves the
world untouched. -/
theorem up_to_date_run (w : World) (f : Faults) (n : String) (force : Bool)
    (c : Container) (hc : lookupContainer w n = some c)
    (heq : lookupAssoc w.registry c.config.image = some c.imageDigest) :
    updateContainer w f n force =
      some (w, { status := .up_to_date, logs := [checkingLog, upToDateLog]
                 errorClass := none, snapshot := none }) := by
  unfold updateContainer
  rw [hc]
  simp [resolveDigest, heq]

/-- C3: with equal local and remote digests, `UpdateContainer` performs
no stop, remove, create or start operation (the daemon state is returned
unchanged and no destructive step is logged), returns `up_to_date`, and a
second immediate invocation returns `up_to_date` again. -/
theorem updateContainer_up_to_date_no_op (w : World) (f f2 : Faults) (n : String)
    (force force2 : Bool) (c : Container) (hc : lookupContainer w n = some c)
    (heq : lookupAssoc w.registry c.config.image = some c.imageDigest) :
    ∃ r : UpdateResult,
      updateContainer w f n force = some (w, r) ∧
      r.status = UpdateStatus.up_to_date ∧
      (∀ s ∈ r.logs, isDestructiveLog s = false) ∧
      ∃ r2 : UpdateResult,
        updateContainer w f2 n force2 = some (w, r2) ∧
        r2.status = UpdateStatus.up_to_date := by
  refine ⟨_, up_to_date_run w f n force c hc heq, rfl, ?_,
    ⟨_, up_to_date_run w f2 n force2 c hc heq, rfl⟩⟩
  intro s hs
  simp only [List.mem_cons, List.not_mem_nil, or_false] at hs
  rcases hs with h | h <;> subst h <;> decide

/-! ## Concrete fixtures used by the witnesses -/

def demoConfig : ConfigSnapshot :=
  { image := "app:v1", entrypoint := none, command := none
    ports := [{ hostPort := some 8080, containerPort := 80, protocol := "tcp" }]
    volumes := [{ source := "data", destination := "/data", mode := "rw" }]
    environment := [("MODE", "prod")]
    networks := [{ network := "bridge", staticIp := none, aliases := [] }]
    labels := [("app", "web")]
    restartPolicy := "always"
    resources := { memoryBytes := none, nanoCpus := none } }

def demoContainer : Container :=
  { name := "web", imageDigest := "sha256:aaa", config := demoConfig, running := true }

/-- A host whose registry serves the same digest the container runs. -/
def demoWorldSame : World :=
  { containers := [demoContainer], registry := [("app:v1", "sha256:aaa")] }

/-- A host whose registry serves a newer digest than the container runs. -/
def demoWorldStale : World :=
  { containers := [demoContainer], registry := [("app:v1", "sha256:bbb")] }

def noFaults : Faults :=
  { snapshotFails := false, pullFails := false, recreateFails := false
    startFails := false, verifyFails := false, rollbackFails := false }

def recreateFaultOnly : Faults :=
  { noFaults with recreateFails := true }

def recreateAndRollbackFault : Faults :=
  { noFaults with recreateFails := true, rollbackFails := true }

def snapshotFaultOnly : Faults :=
  { noFaults with snapshotFails := true }

/-- C3 witness: on a host where the running digest matches the registry
digest, both invocations report `up_to_date`. -/
theorem updateContainer_up_to_date_no_op_witness :
    ∃ r : UpdateResult,
      updateContainer demoWorldSame noFaults "web" false = some (demoWorldSame, r) ∧
      r.status = UpdateStatus.up_to_date ∧
      (∀ s ∈ r.logs, isDestructiveLog s = false) ∧
      ∃ r2 : UpdateResult,
        updateContainer demoWorldSame noFaults "web" true = some (demoWorldSame, r2) ∧
        r2.status = UpdateStatus.up_to_date :=
  updateContainer_up_to_date_no_op demoWorldSame noFaults noFaults "web" false true
    demoContainer (by decide) (by decide)

/-- C1: on every successful update run, the recreated container's
configuration is set-equal to the original container's configuration in
its ports, volumes, environment variables, networks and labels — no field
present in the original configuration is lost by Capture-then-Replay. -/
theorem update_preserves_configuration (w : World) (f : Faults) (n : String)
    (force : Bool) (c : Container) (hc : lookupContainer w n = some c)
    (w2 : World) (r : UpdateResult)
    (hrun : updateContainer w f n force = some (w2, r))
    (hst : r.status = UpdateStatus.updated) :
    ∃ c2 : Container,
      lookupContainer w2 n = some c2 ∧
      (∀ p, p ∈ c2.config.ports ↔ p ∈ c.config.ports) ∧
      (∀ v, v ∈ c2.config.volumes ↔ v ∈ c.config.volumes) ∧
      (∀ e, e ∈ c2.config.environment ↔ e ∈ c.config.environment) ∧
      (∀ nw, nw ∈ c2.config.networks ↔ nw ∈ c.config.networks) ∧
      (∀ lb, lb ∈ c2.config.labels ↔ lb ∈ c.config.labels) := by
  simp only [updateContainer, hc, rollbackFrom] at hrun
  split at hrun
  · split at hrun
    · simp only [Option.some.injEq, Prod.mk.injEq] at hrun
      obtain ⟨hw, hr⟩ := hrun
      subst hr
      simp at hst
    · split at hrun
      · simp only [Option.some.injEq, Prod.mk.injEq] at hrun
        obtain ⟨hw, hr⟩ := hrun
        subst hr
        simp at hst
      · split at hrun
        · split at hrun <;>
            · simp only [Option.some.injEq, Prod.mk.injEq] at hrun
              obtain ⟨hw, hr⟩ := hrun
              subst hr
              simp at hst
        · split at hrun
          · split at hrun <;>
              · simp only [Option.some.injEq, Prod.mk.injEq] at hrun
                obtain ⟨hw, hr⟩ := hrun
                subst hr
                simp at hst
          · split at hrun
            · split at hrun <;>
                · simp only [Option.some.injEq, Prod.mk.injEq] at hrun
                  obtain ⟨hw, hr⟩ := hrun
                  subst hr
                  simp at hst
            · simp only [Option.some.injEq, Prod.mk.injEq] at hrun
              obtain ⟨hw, hr⟩ := hrun
              subst hw
              refine ⟨_, lookup_commitW w n (capture c) c.config.image _, ?_, ?_, ?_, ?_, ?_⟩ <;>
                intro x <;> exact Iff.rfl
  · simp only [Option.some.injEq, Prod.mk.injEq] at hrun
    obtain ⟨hw, hr⟩ := hrun
    subst hr
    simp at hst

/-- C2: in every run whose Recreating, Starting or Verifying step fails,
once the orchestration reaches its terminal state the container of the
original name is running again with the original image digest — unless
the terminal state is `failed_unrecoverable`, in which case the result
carries the complete pre-update ConfigSnapshot. -/
theorem rollback_invariant (w : World) (f : Faults) (n : String) (force : Bool)
    (c : Container) (hc : lookupContainer w n = some c)
    (hsnap : f.snapshotFails = false) (hpull : f.pullFails = false)
    (hfail : f.recreateFails = true ∨ f.startFails = true ∨ f.verifyFails = true)
    (d : String) (hd : lookupAssoc w.registry c.config.image = some d)
    (hne : d ≠ c.imageDigest)
    (w2 : World) (r : UpdateResult)
    (hrun : updateContainer w f n force = some (w2, r)) :
    (r.status ≠ UpdateStatus.failed_unrecoverable →
      ∃ c2 : Container, lookupContainer w2 n = some c2 ∧
        c2.running = true ∧ c2.imageDigest = c.imageDigest) ∧
    (r.status = UpdateStatus.failed_unrecoverable →
      r.snapshot = some (capture c)) := by
  have hne2 : c.imageDigest ≠ d := fun h => hne h.symm
  simp only [updateContainer, hc, hd, resolveDigest, rollbackFrom] at hrun
  simp only [hsnap, hpull] at hrun
  simp [hne2] at hrun
  split at hrun
  · -- Recreating fails
    split at hrun
    · -- rollback itself fails
      simp only [Option.some.injEq, Prod.mk.injEq] at hrun
      obtain ⟨hw, hr⟩ := hrun
      subst hr
      exact ⟨fun h => absurd rfl h, fun _ => rfl⟩
    · simp only [Option.some.injEq, Prod.mk.injEq] at hrun
      obtain ⟨hw, hr⟩ := hrun
      subst hr
      refine ⟨fun _ => ⟨Container.mk n c.imageDigest (capture c) true, ?_, rfl, rfl⟩,
        fun h => by simp at h⟩
      rw [← hw]
      exact lookup_rollbackW _ n c.imageDigest (capture c)
  · split at hrun
    · -- Starting fails
      split at hrun
      · simp only [Option.some.injEq, Prod.mk.injEq] at hrun
        obtain ⟨hw, hr⟩ := hrun
        subst hr
        exact ⟨fun h => absurd rfl h, fun _ => rfl⟩
      · simp only [Option.some.injEq, Prod.mk.injEq] at hrun
        obtain ⟨hw, hr⟩ := hrun
        subst hr
        refine ⟨fun _ => ⟨Container.mk n c.imageDigest (capture c) true, ?_, rfl, rfl⟩,
          fun h => by simp at h⟩
        rw [← hw]
        exact lookup_rollbackW _ n c.imageDigest (capture c)
    · split at hrun
      · -- Verifying fails
        split at hrun
        · simp only [Option.some.injEq, Prod.mk.injEq] at hrun
          obtain ⟨hw, hr⟩ := hrun
          subst hr
          exact ⟨fun h => absurd rfl h, fun _ => rfl⟩
        · simp only [Option.some.injEq, Prod.mk.injEq] at hrun
          obtain ⟨hw, hr⟩ := hrun
          subst hr
          refine ⟨fun _ => ⟨Container.mk n c.imageDigest (capture c) true, ?_, rfl, rfl⟩,
            fun h => by simp at h⟩
          rw [← hw]
          exact lookup_rollbackW _ n c.imageDigest (capture c)
      · -- no destructive-window fault at all: contradicts hfail
        rcases hfail with h | h | h <;> simp_all

/-- The world left behind by a successful rollback of the demo host. -/
def demoRolledBackWorld : World :=
  { containers := [{ name := "web", imageDigest := "sha256:aaa"
                     config := demoConfig, running := true }]
    registry := [("app:v1", "sha256:bbb")] }

/-- The result reported for a recreate failure with a working rollback. -/
def demoRecreateFailResult : UpdateResult :=
  { status := UpdateStatus.failed_rolled_back
    logs := [checkingLog, snapshotLog, pullLog, stoppingLog, removingLog,
             recreatingLog, "ERROR: recreate failed", rollingBackLog, rolledBackLog]
    errorClass := some ErrorClass.recreateError
    snapshot := some demoConfig }

/-- C2 witness: a concrete recreate failure on a stale container; the
rollback restores the original digest. -/
theorem rollback_invariant_witness :
    (demoRecreateFailResult.status ≠ UpdateStatus.failed_unrecoverable →
      ∃ c2 : Container, lookupContainer demoRolledBackWorld "web" = some c2 ∧
        c2.running = true ∧ c2.imageDigest = demoContainer.imageDigest) ∧
    (demoRecreateFailResult.status = UpdateStatus.failed_unrecoverable →
      demoRecreateFailResult.snapshot = some (capture demoContainer)) :=
  rollback_invariant demoWorldStale recreateFaultOnly "web" false demoContainer
    (by decide) rfl rfl (Or.inl rfl) "sha256:bbb" (by decide) (by decide)
    demoRolledBackWorld demoRecreateFailResult (by decide)

/-- The world left behind by a successful update of the demo host. -/
def demoUpdatedWorld : World :=
  { containers := [{ name := "web", imageDigest := "sha256:bbb"
                     config := demoConfig, running := true }]
    registry := [("app:v1", "sha256:bbb")] }

/-- The result reported for a fault-free update of the demo host. -/
def demoUpdatedResult : UpdateResult :=
  { status := UpdateStatus.updated
    logs := [checkingLog, snapshotLog, pullLog, stoppingLog, removingLog,
             recreatingLog, startingLog, verifyingLog, committedLog]
    errorClass := none
    snapshot := some demoConfig }

/-- C1 witness: the fault-free update of the demo host preserves ports,
volumes, environment, networks and labels. -/
theorem update_preserves_configuration_witness :
    ∃ c2 : Container,
      lookupContainer demoUpdatedWorld "web" = some c2 ∧
      (∀ p, p ∈ c2.config.ports ↔ p ∈ demoContainer.config.ports) ∧
      (∀ v, v ∈ c2.config.volumes ↔ v ∈ demoContainer.config.volumes) ∧
      (∀ e, e ∈ c2.config.environment ↔ e ∈ demoContainer.config.environment) ∧
      (∀ nw, nw ∈ c2.config.networks ↔ nw ∈ demoContainer.config.networks) ∧
      (∀ lb, lb ∈ c2.config.labels ↔ lb ∈ demoContainer.config.labels) :=
  update_preserves_configuration demoWorldStale noFaults "web" false demoContainer
    (by decide) demoUpdatedWorld demoUpdatedResult (by decide) rfl

/-- C4 (amended): `failed_unrecoverable` arises exactly for the error
classes RollbackError, SnapshotCaptureError and PullError — the latter
two abort before any destructive action — and in the RollbackError case
the result carries the complete pre-update ConfigSnapshot. -/
theorem failed_unrecoverable_classes (w : World) (f : Faults) (n : String)
    (force : Bool) (w2 : World) (r : UpdateResult)
    (hrun : updateContainer w f n force = some (w2, r)) :
    (r.status = UpdateStatus.failed_unrecoverable ↔
      (r.errorClass = some ErrorClass.rollbackError ∨
       r.errorClass = some ErrorClass.snapshotCaptureError ∨
       r.errorClass = some ErrorClass.pullError)) ∧
    (r.errorClass = some ErrorClass.rollbackError →
      ∃ c : Container, lookupContainer w n = some c ∧
        r.snapshot = some (capture c)) := by
  cases hlc : lookupContainer w n with
  | none => simp [updateContainer, hlc] at hrun
  | some c =>
    simp only [updateContainer, hlc, rollbackFrom] at hrun
    split at hrun
    · split at hrun
      · simp only [Option.some.injEq, Prod.mk.injEq] at hrun
        obtain ⟨hw, hr⟩ := hrun
        subst hr
        exact ⟨by simp, fun h => by simp at h⟩
      · split at hrun
        · simp only [Option.some.injEq, Prod.mk.injEq] at hrun
          obtain ⟨hw, hr⟩ := hrun
          subst hr
          exact ⟨by simp, fun h => by simp at h⟩
        · split at hrun
          · split at hrun
            · simp only [Option.some.injEq, Prod.mk.injEq] at hrun
              obtain ⟨hw, hr⟩ := hrun
              subst hr
              exact ⟨by simp, fun _ => ⟨c, rfl, rfl⟩⟩
            · simp only [Option.some.injEq, Prod.mk.injEq] at hrun
              obtain ⟨hw, hr⟩ := hrun
              subst hr
              exact ⟨by simp, fun h => by simp at h⟩
          · split at hrun
            · split at hrun
              · simp only [Option.some.injEq, Prod.mk.injEq] at hrun
                obtain ⟨hw, hr⟩ := hrun
                subst hr
                exact ⟨by simp, fun _ => ⟨c, rfl, rfl⟩⟩
              · simp only [Option.some.injEq, Prod.mk.injEq] at hrun
                obtain ⟨hw, hr⟩ := hrun
                subst hr
                exact ⟨by simp, fun h => by simp at h⟩
            · split at hrun
              · split at hrun
                · simp only [Option.some.injEq, Prod.mk.injEq] at hrun
                  obtain ⟨hw, hr⟩ := hrun
                  subst hr
                  exact ⟨by simp, fun _ => ⟨c, rfl, rfl⟩⟩
                · simp only [Option.some.injEq, Prod.mk.injEq] at hrun
                  obtain ⟨hw, hr⟩ := hrun
                  subst hr
                  exact ⟨by simp, fun h => by simp at h⟩
              · simp only [Option.some.injEq, Prod.mk.injEq] at hrun
                obtain ⟨hw, hr⟩ := hrun
                subst hr
                exact ⟨by simp, fun h => by simp at h⟩
    · split at hrun <;>
        · simp only [Option.some.injEq, Prod.mk.injEq] at hrun
          obtain ⟨hw, hr⟩ := hrun
          subst hr
          exact ⟨by simp, fun h => by simp at h⟩

/-- C4 counterexample: the claim "failed_unrecoverable only arises from
RollbackError, and then carries a snapshot" is refuted by a snapshot
capture failure, which the orchestration also reports
`failed_unrecoverable` — with error class SnapshotCaptureError and no
snapshot in the result. -/
theorem failed_unrecoverable_not_only_rollback :
    ¬ (∀ (w : World) (f : Faults) (n : String) (force : Bool)
         (w2 : World) (r : UpdateResult),
         updateContainer w f n force = some (w2, r) →
         r.status = UpdateStatus.failed_unrecoverable →
         r.errorClass = some ErrorClass.rollbackError ∧ r.snapshot.isSome = true) := by
  intro h
  have h2 := h demoWorldStale snapshotFaultOnly "web" false demoWorldStale
    { status := UpdateStatus.failed_unrecoverable
      logs := [checkingLog, snapshotLog, "ERROR: snapshot capture failed"]
      errorClass := some ErrorClass.snapshotCaptureError
      snapshot := none }
    (by decide) rfl
  exact absurd h2.1 (by decide)

/-- The result reported when snapshot capture fails on the demo host. -/
def demoSnapshotFailResult : UpdateResult :=
  { status := UpdateStatus.failed_unrecoverable
    logs := [checkingLog, snapshotLog, "ERROR: snapshot capture failed"]
    errorClass := some ErrorClass.snapshotCaptureError
    snapshot := none }

/-- C4 witness: the amended classification instantiated at the snapshot
capture failure run. -/
theorem failed_unrecoverable_classes_witness :
    (demoSnapshotFailResult.status = UpdateStatus.failed_unrecoverable ↔
      (demoSnapshotFailResult.errorClass = some ErrorClass.rollbackError ∨
       demoSnapshotFailResult.errorClass = some ErrorClass.snapshotCaptureError ∨
       demoSnapshotFailResult.errorClass = some ErrorClass.pullError)) ∧
    (demoSnapshotFailResult.errorClass = some ErrorClass.rollbackError →
      ∃ c : Container, lookupContainer demoWorldStale "web" = some c ∧
        demoSnapshotFailResult.snapshot = some (capture c)) :=
  failed_unrecoverable_classes demoWorldStale snapshotFaultOnly "web" false
    demoWorldStale demoSnapshotFailResult (by decide)

/-- C6: `updateAvailable` holds exactly when both digests resolve and
differ; an unresolvable remote digest yields no-update plus the soft
warning; and the fleet scan is total and compositional — every container
gets its own entry, and adding containers (resolvable or not) never
changes or drops the entries of the others. -/
theorem digest_resolution_soft_failure :
    (∀ localD remoteD : Option String,
      ((resolveDigest localD remoteD).updateAvailable = true ↔
        ∃ l r, localD = some l ∧ remoteD = some r ∧ l ≠ r)) ∧
    (∀ localD : Option String,
      (resolveDigest localD none).updateAvailable = false ∧
      (resolveDigest localD none).warning = true) ∧
    (∀ (cs1 cs2 : List Container) (reg : List (String × String)),
      scanFleet { containers := cs1 ++ cs2, registry := reg } =
        scanFleet { containers := cs1, registry := reg } ++
        scanFleet { containers := cs2, registry := reg }) ∧
    (∀ w : World, (scanFleet w).length = w.containers.length) := by
  refine ⟨?_, ?_, ?_, ?_⟩
  · intro localD remoteD
    cases localD with
    | none => simp [resolveDigest]
    | some l =>
      cases remoteD with
      | none => simp [resolveDigest]
      | some r =>
        constructor
        · intro h
          exact ⟨l, r, rfl, rfl, of_decide_eq_true h⟩
        · rintro ⟨l2, r2, h1, h2, h3⟩
          cases h1
          cases h2
          exact decide_eq_true h3
  · intro localD
    cases localD <;> simp [resolveDigest]
  · intro cs1 cs2 reg
    simp [scanFleet]
  · intro w
    simp [scanFleet]

/-- C7: every orchestration run carries an ordered step log opening with
the Checking step, and the operator-facing log view renders every entry
of `UpdateResult.logs` verbatim: the rendered rows' texts are exactly the
log entries, in order, none dropped. -/
theorem logs_surfaced_verbatim (w : World) (f : Faults) (n : String) (force : Bool)
    (w2 : World) (r : UpdateResult)
    (hrun : updateContainer w f n force = some (w2, r)) :
    r.logs.head? = some checkingLog ∧
    (renderLogs r.logs).map Prod.snd = r.logs ∧
    (renderLogs r.logs).length = r.logs.length := by
  refine ⟨?_, by simp [renderLogs, Function.comp_def], by simp [renderLogs]⟩
  cases hlc : lookupContainer w n with
  | none => simp [updateContainer, hlc] at hrun
  | some c =>
    simp only [updateContainer, hlc, rollbackFrom] at hrun
    split at hrun <;>
      (try split at hrun) <;>
      (try split at hrun) <;>
      (try split at hrun) <;>
      (try split at hrun) <;>
      (try split at hrun) <;>
      (try split at hrun) <;>
      (simp only [Option.some.injEq, Prod.mk.injEq] at hrun
       obtain ⟨hw, hr⟩ := hrun
       subst hr
       rfl)

/-- C7 witness: the demo run's logs, rendered verbatim. -/
theorem logs_surfaced_verbatim_witness :
    demoUpdatedResult.logs.head? = some checkingLog ∧
    (renderLogs demoUpdatedResult.logs).map Prod.snd = demoUpdatedResult.logs ∧
    (renderLogs demoUpdatedResult.logs).length = demoUpdatedResult.logs.length :=
  logs_surfaced_verbatim demoWorldStale noFaults "web" false
    demoUpdatedWorld demoUpdatedResult (by decide)

/-- Every addressed fan-out entry is either a success or a failure, so
the two counts partition the batch. -/
theorem success_failure_partition (rs : List (Option (World × UpdateResult)))
    (hall : ∀ o ∈ rs, o.isSome = true) :
    countSuccesses rs + countFailures rs = rs.length := by
  induction rs with
  | nil => rfl
  | cons o rest ih =>
    have ho : o.isSome = true := hall o (by simp)
    have ih2 := ih (fun x hx => hall x (by simp [hx]))
    cases o with
    | none => simp at ho
    | some p =>
      simp only [countSuccesses, countFailures, List.countP_cons, List.length_cons] at *
      cases hs : p.2.status <;>
        simp [entrySucceeds, entryFails, isSuccessR, isFailureR, hs] <;>
        omega

/-- C5: the fan-out returns one entry per target, each entry computed
from its own target alone; when every target is addressed and exactly one
fails, the aggregate reports N-1 successes and 1 failure. The frontend's
multi-host `fetchAllStats` has the same shape: every host gets its own
entry, one host's failure never dropping a sibling's. -/
theorem updateMany_isolated_failure (ts : List Target)
    (hall : ∀ o ∈ updateMany ts, o.isSome = true)
    (hone : countFailures (updateMany ts) = 1) :
    (updateMany ts).length = ts.length ∧
    countSuccesses (updateMany ts) = ts.length - 1 ∧
    (∀ i (h : i < ts.length),
      (updateMany ts).get ⟨i, by simpa [updateMany] using h⟩ =
        updateContainer (ts.get ⟨i, h⟩).world (ts.get ⟨i, h⟩).faults
          (ts.get ⟨i, h⟩).name (ts.get ⟨i, h⟩).force) ∧
    (∀ hosts : List (Nat × HostFetch),
      (fetchAllStats hosts).length = hosts.length ∧
      ∀ hf ∈ hosts, (hf.1, hostStatsOf hf.2) ∈ fetchAllStats hosts) := by
  have hlen : (updateMany ts).length = ts.length := by simp [updateMany]
  have hpart := success_failure_partition (updateMany ts) hall
  refine ⟨hlen, by omega, ?_, ?_⟩
  · intro i h
    simp [updateMany]
  · intro hosts
    exact ⟨by simp [fetchAllStats], fun hf hm => List.mem_map_of_mem _ hm⟩

/-- A two-target fleet: one already-up-to-date host, one stale host whose
recreate and rollback both fail. -/
def demoTargets : List Target :=
  [ { world := demoWorldSame, faults := noFaults, name := "web", force := false },
    { world := demoWorldStale, faults := recreateAndRollbackFault, name := "web"
      force := false } ]

/-- C5 witness: on the two-target demo fleet with exactly one engineered
failure, the aggregate reports one success and one failure and leaves
each entry a function of its own target. -/
theorem updateMany_isolated_failure_witness :
    (updateMany demoTargets).length = demoTargets.length ∧
    countSuccesses (updateMany demoTargets) = demoTargets.length - 1 ∧
    (∀ i (h : i < demoTargets.length),
      (updateMany demoTargets).get ⟨i, by simpa [updateMany] using h⟩ =
        updateContainer (demoTargets.get ⟨i, h⟩).world (demoTargets.get ⟨i, h⟩).faults
          (demoTargets.get ⟨i, h⟩).name (demoTargets.get ⟨i, h⟩).force) ∧
    (∀ hosts : List (Nat × HostFetch),
      (fetchAllStats hosts).length = hosts.length ∧
      ∀ hf ∈ hosts, (hf.1, hostStatsOf hf.2) ∈ fetchAllStats hosts) :=
  updateMany_isolated_failure demoTargets (by decide) (by decide)

/-- C8 counterexample: the operator can reach a host configuration whose
transport is plain Docker TCP with "Use TLS" unticked — the form offers
exactly that sequence of controls, so a TCP-without-TLS host
configuration exists. -/
theorem tcp_without_tls_reachable :
    HostFormReachable (initHostForm none) tcpWithoutTls ∧
    tcpWithoutTls.connection_type = "tcp" ∧
    tcpWithoutTls.docker_tls = false :=
  ⟨HostFormReachable.step (HostFormEvent.setUseTls false) _
    (HostFormReachable.step HostFormEvent.selectTcp _ HostFormReachable.start),
   rfl, rfl⟩

/-- C8 (amended): every host connection configuration reachable through
the form uses one of exactly two transports — SSH tunnel or direct Docker
TCP — and a fresh form starts as SSH with "Use TLS" pre-selected, so TCP
defaults to TLS-secured; TLS may however be explicitly disabled. -/
theorem host_connection_kinds (s : HostFormData)
    (h : HostFormReachable (initHostForm none) s) :
    (s.connection_type = "ssh" ∨ s.connection_type = "tcp") ∧
    (initHostForm none).connection_type = "ssh" ∧
    (initHostForm none).docker_tls = true := by
  refine ⟨?_, rfl, rfl⟩
  induction h with
  | start => exact Or.inl rfl
  | step e s hs ih =>
    cases e with
    | selectSsh => exact Or.inl rfl
    | selectTcp => exact Or.inr rfl
    | setUseTls b => exact ih
    | setDockerPort p => exact ih

/-- C8 witness: the amended transport dichotomy at the reachable
TCP-without-TLS state. -/
theorem host_connection_kinds_witness :
    (tcpWithoutTls.connection_type = "ssh" ∨ tcpWithoutTls.connection_type = "tcp") ∧
    (initHostForm none).connection_type = "ssh" ∧
    (initHostForm none).docker_tls = true :=
  host_connection_kinds tcpWithoutTls
    (HostFormReachable.step (HostFormEvent.setUseTls false) _
      (HostFormReachable.step HostFormEvent.selectTcp _ HostFormReachable.start))

/-- C9 counterexample: with VITE_SOC_PASSWORD set to the empty string,
the JavaScript fallback makes the effective password "admin", so the
empty password — exactly equal to the configured value, which the claim
says should be accepted — is rejected: the claimed biconditional fails. -/
theorem login_claim_counterexample :
    ¬ ((login (some "") "" { isAuthenticated := false, storageToken := none }).1 = true ↔
        "" = claimedSocPassword (some "")) := by
  decide

/-- C9 (amended): `login` returns true and marks the session
authenticated (storing the literal token) exactly when the password
equals the effective SOC password — VITE_SOC_PASSWORD with "admin"
substituted when the variable is unset or set to the empty string — a
failed login leaves the session unchanged; and on page load the session
is authenticated exactly when the stored `soc_auth_token` is the literal
string "authenticated", with no password consulted. -/
theorem soc_login_spec :
    (∀ (env : Option String) (pw : String) (s : AuthSession),
      ((login env pw s).1 = true ↔ pw = socPassword env) ∧
      ((login env pw s).1 = true →
        (login env pw s).2.isAuthenticated = true ∧
        (login env pw s).2.storageToken = some "authenticated") ∧
      ((login env pw s).1 = false → (login env pw s).2 = s)) ∧
    (∀ tok : Option String, initialAuth tok = true ↔ tok = some "authenticated") ∧
    socPassword none = "admin" ∧ socPassword (some "") = "admin" := by
  refine ⟨?_, ?_, rfl, rfl⟩
  · intro env pw s
    by_cases h : pw = socPassword env <;> simp [login, h]
  · intro tok
    simp [initialAuth]

/-- C10: a delete request issued without explicit options carries
remove_image = true and force = false; the confirmation dialog
pre-selects image removal and leaves force unselected; and the force
option is offered exactly when the container's state is "running". -/
theorem delete_defaults_spec :
    containersDelete none none = { remove_image := true, force := false } ∧
    initDeleteModal = { removeImage := true, force := false } ∧
    (∀ st : String, deleteModalOffersForce st = true ↔ st = "running") := by
  refine ⟨rfl, rfl, fun st => ?_⟩
  simp [deleteModalOffersForce]

end UpdateDashboard
